import Mathlib

/-!
Verification development for the real-time fan-out core of the Smart Traffic
Management System backend (socket handler module).  The JavaScript module is
shallowly embedded: the two module-level JS Maps (connectedUsers, userRooms)
and the socket.io adapter room table become association lists inside a
ServerState record, each socket event handler becomes a pure state
transformer that also returns the list of deliveries (socket id, event name,
payload) produced by the emit calls it performs, and the periodic timer body
becomes a function parameterised by the results of its two external fetches.
-/

namespace STMS

/-- Identity resolved at connect time (fields read by the handler). -/
structure UserInfo where
  username : String
  role : String
  department : String
deriving DecidableEq, Repr

/-- A live socket: transport socket id, the authenticated user id and user. -/
structure Socket where
  sid : String
  userId : String
  user : UserInfo
deriving DecidableEq, Repr

/-- Traffic reading, restricted to the fields the fan-out layer reads; the
reading field stands for the rest of the document, carried verbatim. -/
structure TrafficData where
  zone : String
  intersectionId : String
  reading : String
deriving DecidableEq, Repr

/-- Incident, restricted to the fields the fan-out layer reads. -/
structure Incident where
  severity : String
  locationZone : Option String
  info : String
deriving DecidableEq, Repr

/-- Payloads of emitted events (tags mirror the object literals built at the
emit sites; the timestamp field carries no information for the claims). -/
inductive Payload where
  | trafficD (d : TrafficData)
  | trafficList (ds : List TrafficData)
  | incidentD (d : Incident)
  | incidents (ds : List Incident)
  | msg (s : String)
  | userSummary (u : UserInfo)
  | roomMsg (room : String)
  | health (connected : Nat) (activeIncidents : Nat)
  | cmd (command : String) (intersectionId : Option String)
      (parameters : String) (issuedBy : String)
  | alertP (alertType : String) (message : String) (priority : String)
      (affectedZones : Option (List String)) (issuedBy : String)
deriving DecidableEq, Repr

/-- One delivered event: recipient socket id, event name, payload. -/
structure Delivery where
  sid : String
  event : String
  payload : Payload
deriving DecidableEq, Repr

/- JS Map and Set, as insertion-ordered association lists / lists. -/

/-- JS Map.get. -/
def mapGet (m : List (String × α)) (k : String) : Option α :=
  (m.find? (fun p => p.1 = k)).map (·.2)

/-- JS Map.has. -/
def mapHas (m : List (String × α)) (k : String) : Bool :=
  m.any (fun p => p.1 = k)

/-- JS Map.set: replaces the value in place when the key exists, otherwise
appends the new binding. -/
def mapSet (m : List (String × α)) (k : String) (v : α) : List (String × α) :=
  if mapHas m k then m.map (fun p => if p.1 = k then (k, v) else p)
  else m ++ [(k, v)]

/-- JS Map.delete. -/
def mapDelete (m : List (String × α)) (k : String) : List (String × α) :=
  m.filter (fun p => p.1 ≠ k)

/-- JS Set.add. -/
def setAdd (s : List String) (x : String) : List String :=
  if x ∈ s then s else s ++ [x]

/-- JS Set.delete. -/
def setDelete (s : List String) (x : String) : List String :=
  s.filter (fun y => y ≠ x)

/-- JS truthiness of an optional string field: undefined and the empty
string are falsy, every other string is truthy. -/
def strTruthy : Option String → Bool
  | none => false
  | some s => decide (s ≠ "")

/-- Entry of the module-level connectedUsers map (the rooms field is
initialised to an empty Set at connect time and never mutated). -/
structure ConnEntry where
  socketId : String
  user : UserInfo
  rooms : List String
deriving DecidableEq, Repr

/-- Whole-server state: the set of connected sockets and the socket.io
adapter room table (transport level), plus the two module-level maps of the
handler, both keyed by user id. -/
structure ServerState where
  sockets : List Socket
  rooms : List (String × List String)
  connectedUsers : List (String × ConnEntry)
  userRooms : List (String × List String)
deriving DecidableEq, Repr

attribute [ext] ServerState

/-- Socket ids currently members of a room (socket.io adapter view). -/
def socketsInRoom (st : ServerState) (room : String) : List String :=
  (st.rooms.filter (fun p => room ∈ p.2)).map (·.1)

/-- io.to(room).emit(event, payload): one delivery per current member. -/
def ioTo (st : ServerState) (room event : String) (p : Payload) : List Delivery :=
  (socketsInRoom st room).map (fun sid => ⟨sid, event, p⟩)

/-- io.emit(event, payload): one delivery per connected socket. -/
def ioEmit (st : ServerState) (event : String) (p : Payload) : List Delivery :=
  st.sockets.map (fun s => ⟨s.sid, event, p⟩)

/-- socket.emit(event, payload): a single delivery to that socket. -/
def socketEmit (sock : Socket) (event : String) (p : Payload) : List Delivery :=
  [⟨sock.sid, event, p⟩]

/-- socket.join(room): the adapter adds the socket to the room. -/
def sioJoin (st : ServerState) (sid room : String) : ServerState :=
  { st with rooms := mapSet st.rooms sid (setAdd ((mapGet st.rooms sid).getD []) room) }

/-- socket.leave(room): the adapter removes the socket from the room;
a no-op when the socket is not a member. -/
def sioLeave (st : ServerState) (sid room : String) : ServerState :=
  { st with rooms := st.rooms.map (fun p => if p.1 = sid then (p.1, setDelete p.2 room) else p) }

/-- joinRoom (source lines 36 to 46): socket.join plus userRooms tracking,
creating the user entry when absent. -/
def joinRoom (st : ServerState) (sock : Socket) (room : String) : ServerState :=
  let st1 := sioJoin st sock.sid room
  let ur := mapSet st1.userRooms sock.userId
    (setAdd ((mapGet st1.userRooms sock.userId).getD []) room)
  { st1 with userRooms := ur }

/-- leaveRoom (source lines 48 to 60): socket.leave plus userRooms tracking;
the user entry is deleted when its set becomes empty. -/
def leaveRoom (st : ServerState) (sock : Socket) (room : String) : ServerState :=
  let st1 := sioLeave st sock.sid room
  let ur :=
    match mapGet st1.userRooms sock.userId with
    | none => st1.userRooms
    | some s =>
      let s1 := setDelete s room
      if s1.isEmpty then mapDelete st1.userRooms sock.userId
      else mapSet st1.userRooms sock.userId s1
  { st1 with userRooms := ur }

/-- Default room joins at connect time (source lines 152 to 165). -/
def defaultJoins (st : ServerState) (sock : Socket) : ServerState :=
  let st1 := joinRoom st sock "general"
  let st2 := if sock.user.role = "admin" ∨ sock.user.role = "operator"
             then joinRoom st1 sock "operations_center" else st1
  let st3 := if sock.user.role = "admin" ∨ sock.user.role = "analyst"
             then joinRoom st2 sock "analytics_center" else st2
  if sock.user.department = "emergency" ∨ sock.user.role = "admin"
  then joinRoom st3 sock "emergency_team" else st3

/-- Connection handler (source lines 129 to 165): registers the user under
its user id (overwriting any previous entry for that id), emits the welcome
event to the new socket, then performs the default joins. -/
def onConnection (st : ServerState) (sock : Socket) : ServerState × List Delivery :=
  let cu := mapSet st.connectedUsers sock.userId ⟨sock.sid, sock.user, []⟩
  let st1 : ServerState :=
    { st with sockets := st.sockets ++ [sock], connectedUsers := cu }
  (defaultJoins st1 sock, socketEmit sock "connected" (.userSummary sock.user))

/-- Character-list core of String.startsWith: does the first list begin
with the second. -/
def charsStartWith : List Char → List Char → Bool
  | _, [] => true
  | [], _ :: _ => false
  | c :: cs, p :: ps => (c = p) && charsStartWith cs ps

/-- JS String.prototype.startsWith, computed on the character lists. -/
def strStartsWith (s pre : String) : Bool :=
  charsStartWith s.data pre.data

/-- JS String.prototype.split with a one-character separator, computed on
the character list. -/
def splitChars (sep : Char) : List Char → List (List Char)
  | [] => [[]]
  | c :: cs =>
    match splitChars sep cs with
    | [] => if c = sep then [[], []] else [[c]]
    | h :: t => if c = sep then [] :: h :: t else (c :: h) :: t

/-- JS s.split(sep) as a list of strings. -/
def strSplit (s : String) (sep : Char) : List String :=
  (splitChars sep s.data).map String.mk

/-- The five fixed zone names (source line 173). -/
def knownZones : List String := ["Central", "North", "South", "East", "West"]

/-- The fixed named rooms accepted by join_room (source line 181). -/
def fixedRooms : List String :=
  ["operations_center", "analytics_center", "emergency_team", "general"]

/-- join_room handler (source lines 167 to 185).  Note the zone check
validates only the second colon-separated component, and any unrecognized
room name falls through every branch silently, emitting nothing. -/
def onJoinRoom (st : ServerState) (sock : Socket) (room : String) :
    ServerState × List Delivery :=
  if strStartsWith room "zone:" then
    let zone := (strSplit room ':').getD 1 ""
    if zone ∈ knownZones then
      (joinRoom st sock room, socketEmit sock "room_joined" (.roomMsg room))
    else (st, [])
  else if strStartsWith room "intersection:" then
    (joinRoom st sock room, socketEmit sock "room_joined" (.roomMsg room))
  else if room ∈ fixedRooms then
    (joinRoom st sock room, socketEmit sock "room_joined" (.roomMsg room))
  else (st, [])

/-- leave_room handler (source lines 188 to 192). -/
def onLeaveRoom (st : ServerState) (sock : Socket) (room : String) :
    ServerState × List Delivery :=
  (leaveRoom st sock room, socketEmit sock "room_left" (.roomMsg room))

/-- Inbound traffic control command envelope. -/
structure TCCommand where
  command : String
  intersectionId : Option String
  parameters : String
deriving DecidableEq, Repr

/-- traffic_control_command handler (source lines 254 to 283). -/
def onTrafficControlCommand (st : ServerState) (sock : Socket) (c : TCCommand) :
    ServerState × List Delivery :=
  if sock.user.role ≠ "admin" ∧ sock.user.role ≠ "operator" then
    (st, socketEmit sock "error"
      (.msg "Insufficient permissions for traffic control commands"))
  else if strTruthy c.intersectionId then
    (st, ioTo st ("intersection:" ++ c.intersectionId.getD "")
      "traffic_control_command"
      (.cmd c.command c.intersectionId c.parameters sock.user.username))
  else
    (st, ioTo st "operations_center" "traffic_control_command"
      (.cmd c.command none c.parameters sock.user.username))

/-- Inbound emergency alert envelope (priority and affectedZones shown after
the destructuring defaults medium and empty list were applied). -/
structure EmergencyAlertMsg where
  alertType : String
  message : String
  priority : String
  affectedZones : List String
deriving DecidableEq, Repr

/-- emergency_alert handler (source lines 286 to 319). -/
def onEmergencyAlert (st : ServerState) (sock : Socket) (a : EmergencyAlertMsg) :
    ServerState × List Delivery :=
  if sock.user.department ≠ "emergency" ∧ sock.user.role ≠ "admin" then
    (st, socketEmit sock "error" (.msg "Insufficient permissions for emergency alerts"))
  else
    (st, ioTo st "emergency_team" "emergency_alert"
        (.alertP a.alertType a.message a.priority (some a.affectedZones) sock.user.username)
      ++ a.affectedZones.flatMap (fun z =>
           ioTo st ("zone:" ++ z) "emergency_alert"
             (.alertP a.alertType a.message a.priority none sock.user.username)))

/-- Disconnect (source lines 327 to 337): the transport removes the socket
from the connected set and from every adapter room, and the handler deletes
both user-keyed map entries. -/
def onDisconnect (st : ServerState) (sock : Socket) : ServerState :=
  { sockets := st.sockets.filter (fun s => s.sid ≠ sock.sid),
    rooms := mapDelete st.rooms sock.sid,
    connectedUsers := mapDelete st.connectedUsers sock.userId,
    userRooms := mapDelete st.userRooms sock.userId }

/-- broadcastTrafficUpdate (source lines 63 to 84): three separate room
emits, one each to the zone room, the intersection room and
operations_center, all carrying the same reading. -/
def broadcastTrafficUpdate (st : ServerState) (td : TrafficData) : List Delivery :=
  ioTo st ("zone:" ++ td.zone) "traffic_update" (.trafficD td)
  ++ ioTo st ("intersection:" ++ td.intersectionId) "traffic_update" (.trafficD td)
  ++ ioTo st "operations_center" "traffic_update" (.trafficD td)

/-- broadcastIncidentUpdate (source lines 87 to 113). -/
def broadcastIncidentUpdate (st : ServerState) (inc : Incident) : List Delivery :=
  ioEmit st "incident_update" (.incidentD inc)
  ++ (if inc.severity = "high" ∨ inc.severity = "critical" then
        ioTo st "emergency_team" "emergency_alert" (.incidentD inc)
      else [])
  ++ (if strTruthy inc.locationZone then
        ioTo st ("zone:" ++ inc.locationZone.getD "") "incident_update" (.incidentD inc)
      else [])

/-- broadcastSystemAlert (source lines 116 to 122). -/
def broadcastSystemAlert (st : ServerState) (alert : String) : List Delivery :=
  ioEmit st "system_alert" (.msg alert)

/-- One body of the 30-second timer (source lines 346 to 383).  The two
external fetches are passed in as results; a raised error is the caught
branch of the surrounding try block, so the function always returns and the
state is never modified. -/
def periodicTick (st : ServerState)
    (fetchTraffic : Except String (List TrafficData))
    (fetchIncidents : Except String (List Incident)) :
    ServerState × List Delivery :=
  match fetchTraffic with
  | .error _ => (st, [])
  | .ok latest =>
    let d1 := ioTo st "operations_center" "traffic_broadcast" (.trafficList latest)
    match fetchIncidents with
    | .error _ => (st, d1)
    | .ok active =>
      (st, d1
        ++ ioTo st "emergency_team" "incident_broadcast" (.incidents active)
        ++ ioEmit st "system_health" (.health st.connectedUsers.length active.length))

/-- A run of successive timer ticks, accumulating deliveries. -/
def runTicks (st : ServerState)
    (inputs : List (Except String (List TrafficData) × Except String (List Incident))) :
    ServerState × List Delivery :=
  inputs.foldl (fun acc inp =>
    let r := periodicTick acc.1 inp.1 inp.2
    (r.1, acc.2 ++ r.2)) (st, [])

/-- Number of deliveries of a given event with a given payload to a given
socket id within a delivery list. -/
def countEventTo (ds : List Delivery) (sid event : String) (p : Payload) : Nat :=
  ds.countP (fun d => decide (d.sid = sid ∧ d.event = event ∧ d.payload = p))

/-- Multiplicity of a socket id in the member list of a room. -/
def memCount (st : ServerState) (room sid : String) : Nat :=
  (socketsInRoom st room).countP (fun s => decide (s = sid))

/-- Deliveries of a delivery list restricted to one event name. -/
def filterEvent (ds : List Delivery) (event : String) : List Delivery :=
  ds.filter (fun d => decide (d.event = event))

/- Concrete objects for witnesses and counterexamples. -/

/-- A server with nothing connected. -/
def emptyState : ServerState := ⟨[], [], [], []⟩

/-- An admin session. -/
def sockA : Socket := ⟨"sA", "uA", ⟨"alice", "admin", "operations"⟩⟩

/-- A viewer session. -/
def sockB : Socket := ⟨"sB", "uB", ⟨"bob", "viewer", "operations"⟩⟩

/-- A second viewer session. -/
def sockC : Socket := ⟨"sC", "uC", ⟨"carol", "viewer", "operations"⟩⟩

/-- Two sockets of the same user (operator dave). -/
def sockD1 : Socket := ⟨"s1", "uD", ⟨"dave", "operator", "operations"⟩⟩

/-- Second connection of the same user dave. -/
def sockD2 : Socket := ⟨"s2", "uD", ⟨"dave", "operator", "operations"⟩⟩

/-- A viewer session in the emergency department. -/
def sockE : Socket := ⟨"sE", "uE", ⟨"erin", "viewer", "emergency"⟩⟩

/-- State after A, B, C connect and A and B join the North zone room. -/
def scenarioState : ServerState :=
  let st1 := (onConnection emptyState sockA).1
  let st2 := (onConnection st1 sockB).1
  let st3 := (onConnection st2 sockC).1
  let st4 := (onJoinRoom st3 sockA "zone:North").1
  (onJoinRoom st4 sockB "zone:North").1

/-- A reading for zone North at intersection I1. -/
def tdNorth : TrafficData := ⟨"North", "I1", "r1"⟩

/-- A high-severity incident located in zone North. -/
def incHigh : Incident := ⟨"high", some "North", "i1"⟩

/- Lemmas on the JS Map and Set embeddings. -/

lemma mapGet_cons (a : String × α) (m : List (String × α)) (k : String) :
    mapGet (a :: m) k = if a.1 = k then some a.2 else mapGet m k := by
  by_cases h : a.1 = k <;> simp [mapGet, List.find?_cons, h]

lemma mapHas_false_forall {m : List (String × α)} {k : String}
    (h : mapHas m k = false) : ∀ p ∈ m, ¬ p.1 = k := by
  intro p hp he
  have ht : mapHas m k = true := by
    simp only [mapHas, List.any_eq_true, decide_eq_true_eq]
    exact ⟨p, hp, he⟩
  rw [ht] at h
  exact absurd h (by simp)

lemma mapGet_map_replace (m : List (String × α)) (k : String) (v : α)
    (h : mapHas m k = true) :
    mapGet (m.map (fun p => if p.1 = k then (k, v) else p)) k = some v := by
  induction m with
  | nil => simp [mapHas] at h
  | cons a t ih =>
    by_cases hk : a.1 = k
    · simp [mapGet_cons, hk]
    · have ht : mapHas t k = true := by
        simp only [mapHas, List.any_cons, Bool.or_eq_true, decide_eq_true_eq] at h ⊢
        tauto
      simpa [mapGet_cons, hk] using ih ht

lemma mapGet_append_new (m : List (String × α)) (k : String) (v : α)
    (h : mapHas m k = false) :
    mapGet (m ++ [(k, v)]) k = some v := by
  induction m with
  | nil => simp [mapGet_cons]
  | cons a t ih =>
    have hp := mapHas_false_forall h
    have hk : ¬ a.1 = k := hp a (by simp)
    have ht : mapHas t k = false := by
      cases hht : mapHas t k with
      | false => rfl
      | true =>
        exfalso
        simp only [mapHas, List.any_eq_true, decide_eq_true_eq] at hht
        obtain ⟨p, hpt, he⟩ := hht
        exact hp p (by simp [hpt]) he
    simpa [mapGet_cons, hk] using ih ht

lemma mapGet_mapSet_self (m : List (String × α)) (k : String) (v : α) :
    mapGet (mapSet m k v) k = some v := by
  unfold mapSet
  by_cases h : mapHas m k = true
  · simpa [h] using mapGet_map_replace m k v h
  · have h2 : mapHas m k = false := by simpa using h
    simpa [h2] using mapGet_append_new m k v h2

lemma mapGet_mapDelete_self (m : List (String × α)) (k : String) :
    mapGet (mapDelete m k) k = none := by
  induction m with
  | nil => rfl
  | cons a t ih =>
    by_cases hk : a.1 = k
    · simpa [mapDelete, List.filter_cons, hk] using ih
    · simpa [mapDelete, List.filter_cons, hk, mapGet_cons] using ih

lemma mapHas_mapSet_self (m : List (String × α)) (k : String) (v : α) :
    mapHas (mapSet m k v) k = true := by
  unfold mapSet
  by_cases h : mapHas m k = true
  · simp only [h, if_true]
    simp only [mapHas, List.any_eq_true, decide_eq_true_eq] at h ⊢
    obtain ⟨p, hp, he⟩ := h
    exact ⟨(k, v), List.mem_map.mpr ⟨p, hp, by simp [he]⟩, rfl⟩
  · simp only [h, if_false]
    simp [mapHas]

lemma mapSet_mapSet_self (m : List (String × α)) (k : String) (v w : α) :
    mapSet (mapSet m k v) k w = mapSet m k w := by
  by_cases h : mapHas m k = true
  · have h2 : mapHas (mapSet m k v) k = true := mapHas_mapSet_self m k v
    unfold mapSet at h2 ⊢
    simp only [h, if_true] at h2 ⊢
    simp only [h2, if_true, List.map_map]
    apply List.map_congr_left
    intro p _
    by_cases hk : p.1 = k <;> simp [hk, Function.comp]
  · have h2 : mapHas (mapSet m k v) k = true := mapHas_mapSet_self m k v
    have hf : mapHas m k = false := by simpa using h
    unfold mapSet at h2 ⊢
    simp only [hf, Bool.false_eq_true, if_false] at h2 ⊢
    simp only [h2, if_true, List.map_append]
    have hm : m.map (fun p => if p.1 = k then (k, w) else p) = m := by
      have hp := mapHas_false_forall hf
      calc m.map (fun p => if p.1 = k then (k, w) else p)
          = m.map id := List.map_congr_left (fun p hmem => by simp [hp p hmem])
        _ = m := List.map_id m
    simp [hm]

lemma setDelete_idem (s : List String) (x : String) :
    setDelete (setDelete s x) x = setDelete s x := by
  simp [setDelete, List.filter_filter]

lemma nodupKeys_mapSet (m : List (String × α)) (k : String) (v : α)
    (h : (m.map Prod.fst).Nodup) :
    ((mapSet m k v).map Prod.fst).Nodup := by
  unfold mapSet
  by_cases hh : mapHas m k = true
  · simp only [hh, if_true]
    have he : (m.map (fun p => if p.1 = k then (k, v) else p)).map Prod.fst
        = m.map Prod.fst := by
      simp only [List.map_map]
      apply List.map_congr_left
      intro p _
      by_cases hk : p.1 = k <;> simp [hk, Function.comp]
    rw [he]
    exact h
  · simp only [hh, Bool.false_eq_true, if_false]
    have hp := mapHas_false_forall (m := m) (k := k) (by simpa using hh)
    simp only [List.map_append, List.map_cons, List.map_nil]
    rw [List.nodup_append]
    refine ⟨h, List.nodup_singleton k, ?_⟩
    intro x hx hxk
    simp only [List.mem_singleton] at hxk
    obtain ⟨p, hmem, hfst⟩ := List.mem_map.mp hx
    exact hp p hmem (by rw [hfst, hxk])

/- Counting and filtering lemmas for delivery lists. -/

lemma countEventTo_append (ds1 ds2 : List Delivery) (sid ev : String) (p : Payload) :
    countEventTo (ds1 ++ ds2) sid ev p =
      countEventTo ds1 sid ev p + countEventTo ds2 sid ev p := by
  simp [countEventTo, List.countP_append]

lemma countP_mapDeliv (l : List String) (ev : String) (p : Payload) (sid : String) :
    (l.map (fun s => Delivery.mk s ev p)).countP
      (fun d => decide (d.sid = sid ∧ d.event = ev ∧ d.payload = p)) =
      l.countP (fun s => decide (s = sid)) := by
  rw [List.countP_map]
  apply List.countP_congr
  intro a _
  simp [Function.comp]

lemma countEventTo_ioTo_same (st : ServerState) (room ev : String) (p : Payload)
    (sid : String) :
    countEventTo (ioTo st room ev p) sid ev p = memCount st room sid := by
  simpa [countEventTo, ioTo, memCount] using
    countP_mapDeliv (socketsInRoom st room) ev p sid

/-- Per-session copy count for one broadcastTrafficUpdate call: one copy per
targeted room the socket currently belongs to. -/
lemma countTrafficUpdate (st : ServerState) (td : TrafficData) (sid : String) :
    countEventTo (broadcastTrafficUpdate st td) sid "traffic_update" (.trafficD td) =
      memCount st ("zone:" ++ td.zone) sid
      + memCount st ("intersection:" ++ td.intersectionId) sid
      + memCount st "operations_center" sid := by
  simp [broadcastTrafficUpdate, countEventTo_append, countEventTo_ioTo_same,
    Nat.add_assoc]

lemma filterEvent_append (ds1 ds2 : List Delivery) (ev : String) :
    filterEvent (ds1 ++ ds2) ev = filterEvent ds1 ev ++ filterEvent ds2 ev := by
  simp [filterEvent]

lemma filterEvent_map_const {α : Type} (l : List α) (f : α → Delivery)
    (ev ev2 : String) (h : ∀ x, (f x).event = ev) :
    filterEvent (l.map f) ev2 = if ev = ev2 then l.map f else [] := by
  induction l with
  | nil => simp [filterEvent]
  | cons a t ih =>
    by_cases he : ev = ev2 <;>
      simp [filterEvent, List.filter_cons, h a, he] at ih ⊢ <;> exact ih

lemma filterEvent_ioTo (st : ServerState) (room ev ev2 : String) (p : Payload) :
    filterEvent (ioTo st room ev p) ev2 = if ev = ev2 then ioTo st room ev p else [] :=
  filterEvent_map_const _ _ ev ev2 (fun _ => rfl)

lemma filterEvent_ioEmit (st : ServerState) (ev ev2 : String) (p : Payload) :
    filterEvent (ioEmit st ev p) ev2 = if ev = ev2 then ioEmit st ev p else [] :=
  filterEvent_map_const _ _ ev ev2 (fun _ => rfl)

/- Projection lemmas for the room operations. -/

lemma joinRoom_sockets (st : ServerState) (sock : Socket) (room : String) :
    (joinRoom st sock room).sockets = st.sockets := rfl

lemma joinRoom_connectedUsers (st : ServerState) (sock : Socket) (room : String) :
    (joinRoom st sock room).connectedUsers = st.connectedUsers := rfl

lemma mapGet_rooms_joinRoom (st : ServerState) (sock : Socket) (room : String) :
    mapGet (joinRoom st sock room).rooms sock.sid =
      some (setAdd ((mapGet st.rooms sock.sid).getD []) room) := by
  simp [joinRoom, sioJoin, mapGet_mapSet_self]

lemma defaultJoins_sockets (st : ServerState) (sock : Socket) :
    (defaultJoins st sock).sockets = st.sockets := by
  unfold defaultJoins
  split_ifs <;> rfl

lemma defaultJoins_connectedUsers (st : ServerState) (sock : Socket) :
    (defaultJoins st sock).connectedUsers = st.connectedUsers := by
  unfold defaultJoins
  split_ifs <;> rfl

/-- C1 (counterexample to the claim as stated): in the scenario state, admin
session A is a member of both zone:North and operations_center, and
broadcastTrafficUpdate for a North reading emits once per targeted room, so
A receives two traffic_update events carrying the reading, not exactly
one. -/
theorem trafficUpdate_single_copy_counterexample :
    countEventTo (broadcastTrafficUpdate scenarioState tdNorth) "sA"
        "traffic_update" (.trafficD tdNorth) = 2 ∧
    ¬ (countEventTo (broadcastTrafficUpdate scenarioState tdNorth) "sA"
        "traffic_update" (.trafficD tdNorth) = 1) := by
  constructor
  · rfl
  · intro h
    exact absurd h (by decide)

/-- C1 (amended): a broadcastTrafficUpdate dispatch delivers one copy of the
traffic_update event per targeted room the session belongs to.  Session A,
in the zone room and operations_center but not the intersection room,
receives exactly two copies; session B, in the zone room only, receives
exactly one; session C, in none of the three targeted rooms, receives
none. -/
theorem trafficUpdate_copies_per_room (st : ServerState) (td : TrafficData)
    (a b c : String)
    (haZ : memCount st ("zone:" ++ td.zone) a = 1)
    (haO : memCount st "operations_center" a = 1)
    (haI : memCount st ("intersection:" ++ td.intersectionId) a = 0)
    (hbZ : memCount st ("zone:" ++ td.zone) b = 1)
    (hbO : memCount st "operations_center" b = 0)
    (hbI : memCount st ("intersection:" ++ td.intersectionId) b = 0)
    (hcZ : memCount st ("zone:" ++ td.zone) c = 0)
    (hcO : memCount st "operations_center" c = 0)
    (hcI : memCount st ("intersection:" ++ td.intersectionId) c = 0) :
    countEventTo (broadcastTrafficUpdate st td) a "traffic_update" (.trafficD td) = 2 ∧
    countEventTo (broadcastTrafficUpdate st td) b "traffic_update" (.trafficD td) = 1 ∧
    countEventTo (broadcastTrafficUpdate st td) c "traffic_update" (.trafficD td) = 0 := by
  rw [countTrafficUpdate, countTrafficUpdate, countTrafficUpdate,
    haZ, haO, haI, hbZ, hbO, hbI, hcZ, hcO, hcI]
  exact ⟨rfl, rfl, rfl⟩

/-- C1 witness: the amended statement instantiated in the concrete scenario
with A admin, B viewer (both in zone:North) and C in neither targeted
room. -/
theorem trafficUpdate_copies_per_room_witness :
    countEventTo (broadcastTrafficUpdate scenarioState tdNorth) "sA"
        "traffic_update" (.trafficD tdNorth) = 2 ∧
    countEventTo (broadcastTrafficUpdate scenarioState tdNorth) "sB"
        "traffic_update" (.trafficD tdNorth) = 1 ∧
    countEventTo (broadcastTrafficUpdate scenarioState tdNorth) "sC"
        "traffic_update" (.trafficD tdNorth) = 0 :=
  trafficUpdate_copies_per_room scenarioState tdNorth "sA" "sB" "sC"
    (by decide) (by decide) (by decide) (by decide) (by decide) (by decide)
    (by decide) (by decide) (by decide)

/-- C2: the set of rooms joined at connect time is exactly determined by
role and department: general always, operations_center iff role admin or
operator, analytics_center iff role admin or analyst, emergency_team iff
department emergency or role admin. -/
theorem default_rooms_by_role (st : ServerState) (sock : Socket)
    (hfresh : mapGet st.rooms sock.sid = none) (r : String) :
    r ∈ ((mapGet ((onConnection st sock).1).rooms sock.sid).getD []) ↔
      (r = "general"
        ∨ (r = "operations_center"
            ∧ (sock.user.role = "admin" ∨ sock.user.role = "operator"))
        ∨ (r = "analytics_center"
            ∧ (sock.user.role = "admin" ∨ sock.user.role = "analyst"))
        ∨ (r = "emergency_team"
            ∧ (sock.user.department = "emergency" ∨ sock.user.role = "admin"))) := by
  by_cases h1 : sock.user.role = "admin" ∨ sock.user.role = "operator" <;>
    by_cases h2 : sock.user.role = "admin" ∨ sock.user.role = "analyst" <;>
      by_cases h3 : sock.user.department = "emergency" ∨ sock.user.role = "admin" <;>
        simp [onConnection, defaultJoins, h1, h2, h3, mapGet_rooms_joinRoom,
          hfresh, setAdd]

/-- C2 witness: an admin session connecting to the empty server joins all
four default rooms; in particular emergency_team. -/
theorem default_rooms_by_role_witness :
    "emergency_team" ∈ ((mapGet ((onConnection emptyState sockA).1).rooms sockA.sid).getD []) :=
  (default_rooms_by_role emptyState sockA rfl "emergency_team").mpr
    (Or.inr (Or.inr (Or.inr ⟨rfl, Or.inr rfl⟩)))

/-- C3: immediately after the disconnect handler runs for a session, its
user-keyed registry and room-tracking entries are gone, its socket id is a
member of no room, and no room emit or server-wide emit from the resulting
state delivers to that socket id. -/
theorem disconnect_removes_session (st : ServerState) (sock : Socket) :
    mapGet (onDisconnect st sock).connectedUsers sock.userId = none ∧
    mapGet (onDisconnect st sock).userRooms sock.userId = none ∧
    (∀ room : String, sock.sid ∉ socketsInRoom (onDisconnect st sock) room) ∧
    (∀ (room ev : String) (p : Payload),
      ∀ d ∈ ioTo (onDisconnect st sock) room ev p, d.sid ≠ sock.sid) ∧
    (∀ (ev : String) (p : Payload),
      ∀ d ∈ ioEmit (onDisconnect st sock) ev p, d.sid ≠ sock.sid) := by
  have hroom : ∀ room : String, sock.sid ∉ socketsInRoom (onDisconnect st sock) room := by
    intro room hmem
    simp only [socketsInRoom, onDisconnect, mapDelete, List.mem_map,
      List.mem_filter, decide_eq_true_eq] at hmem
    obtain ⟨p, ⟨⟨_, hne⟩, _⟩, hfst⟩ := hmem
    exact hne hfst
  refine ⟨mapGet_mapDelete_self st.connectedUsers sock.userId,
    mapGet_mapDelete_self st.userRooms sock.userId, hroom, ?_, ?_⟩
  · intro room ev p d hd
    simp only [ioTo, List.mem_map] at hd
    obtain ⟨sid, hsid, rfl⟩ := hd
    intro he
    exact hroom room (he ▸ hsid)
  · intro ev p d hd
    simp only [ioEmit, onDisconnect, List.mem_map, List.mem_filter,
      decide_eq_true_eq] at hd
    obtain ⟨s, ⟨_, hne⟩, rfl⟩ := hd
    exact hne

/-- C3 witness: the registry entry of A is gone after A disconnects from
the scenario state. -/
theorem disconnect_removes_session_witness :
    mapGet (onDisconnect scenarioState sockA).connectedUsers sockA.userId = none :=
  (disconnect_removes_session scenarioState sockA).1

/-- C4: a traffic_control_command from a viewer leaves the whole server
state unchanged and produces exactly one delivery: an insufficient
permissions error event to the issuing socket. -/
theorem viewer_command_forbidden (st : ServerState) (sock : Socket) (c : TCCommand)
    (h : sock.user.role = "viewer") :
    onTrafficControlCommand st sock c =
      (st, [⟨sock.sid, "error",
        .msg "Insufficient permissions for traffic control commands"⟩]) := by
  simp [onTrafficControlCommand, h, socketEmit]

/-- C4 witness: viewer B issuing a command in the scenario state. -/
theorem viewer_command_forbidden_witness :
    onTrafficControlCommand scenarioState sockB ⟨"stop", none, "p"⟩ =
      (scenarioState, [⟨sockB.sid, "error",
        .msg "Insufficient permissions for traffic control commands"⟩]) :=
  viewer_command_forbidden scenarioState sockB ⟨"stop", none, "p"⟩ rfl

/-- C5 (counterexample to the claim as stated): joining zone:Mars is
silently ignored, no error or rejection event is sent to the issuer; and
the room name zone:North:extra, which is not of the form zone:z with z a
known zone, nevertheless passes the validation (only the second
colon-separated component is checked) and changes the membership state. -/
theorem invalid_room_join_counterexample :
    (onJoinRoom scenarioState sockC "zone:Mars") = (scenarioState, []) ∧
    (onJoinRoom scenarioState sockC "zone:North:extra").1 ≠ scenarioState := by
  constructor
  · rfl
  · decide

/-- C5 (amended): a join_room request whose room name is not a fixed named
room, does not start with the prefix for intersection rooms, and when it
starts with the zone prefix has a second colon-separated component outside
the five known zones, is silently ignored: the state (memberships and
connected sockets) is unchanged and no event at all is emitted. -/
theorem invalid_room_join_silent (st : ServerState) (sock : Socket) (room : String)
    (hz : strStartsWith room "zone:" = true → ((strSplit room ':').getD 1 "") ∉ knownZones)
    (hi : strStartsWith room "intersection:" = false)
    (hf : room ∉ fixedRooms) :
    onJoinRoom st sock room = (st, []) := by
  by_cases h : strStartsWith room "zone:" = true
  · simp only [onJoinRoom, h, if_true]
    rw [if_neg]
    exact hz h
  · simp [onJoinRoom, h, hi, hf]

/-- C5 witness: the amended statement at the concrete input zone:Mars. -/
theorem invalid_room_join_silent_witness :
    onJoinRoom scenarioState sockC "zone:Mars" = (scenarioState, []) :=
  invalid_room_join_silent scenarioState sockC "zone:Mars"
    (fun _ => by decide) (by decide) (by decide)

/-- C6: a traffic_control_command from any issuer with role admin or
operator is broadcast to the named intersection room when a truthy
(non-empty) intersection id is provided and to operations_center otherwise
(id absent or falsy); an emergency_alert from any issuer with department
emergency or role admin is broadcast to emergency_team plus the zone room
of every affected zone.  Each authorization hypothesis guards only its own
command kind. -/
theorem authorized_command_routing (st : ServerState) (sock : Socket)
    (c : TCCommand) (a : EmergencyAlertMsg) :
    ((sock.user.role = "admin" ∨ sock.user.role = "operator") →
      (∀ i : String, c.intersectionId = some i → ¬ i = "" →
        onTrafficControlCommand st sock c =
          (st, ioTo st ("intersection:" ++ i) "traffic_control_command"
            (.cmd c.command (some i) c.parameters sock.user.username))) ∧
      (strTruthy c.intersectionId = false →
        onTrafficControlCommand st sock c =
          (st, ioTo st "operations_center" "traffic_control_command"
            (.cmd c.command none c.parameters sock.user.username)))) ∧
    ((sock.user.department = "emergency" ∨ sock.user.role = "admin") →
      onEmergencyAlert st sock a =
        (st, ioTo st "emergency_team" "emergency_alert"
            (.alertP a.alertType a.message a.priority (some a.affectedZones)
              sock.user.username)
          ++ a.affectedZones.flatMap (fun z =>
              ioTo st ("zone:" ++ z) "emergency_alert"
                (.alertP a.alertType a.message a.priority none sock.user.username)))) := by
  constructor
  · intro hc
    have hgate : ¬ (sock.user.role ≠ "admin" ∧ sock.user.role ≠ "operator") := by
      rcases hc with h | h <;> simp [h]
    constructor
    · intro i hsome hne
      simp [onTrafficControlCommand, hgate, hsome, strTruthy, hne]
    · intro hfalse
      simp [onTrafficControlCommand, hgate, hfalse]
  · intro ha
    have hgate2 : ¬ (sock.user.department ≠ "emergency" ∧ sock.user.role ≠ "admin") := by
      rcases ha with h | h <;> simp [h]
    simp [onEmergencyAlert, hgate2]

/-- C6 witness: operator dave (department operations) issues a command
naming intersection I1 and the broadcast goes to the intersection room;
emergency-department viewer erin issues an emergency alert for zone North
and the broadcast goes to emergency_team plus the North zone room. -/
theorem authorized_command_routing_witness :
    onTrafficControlCommand scenarioState sockD1 ⟨"go", some "I1", "p"⟩ =
      (scenarioState,
        ioTo scenarioState ("intersection:" ++ "I1") "traffic_control_command"
          (.cmd "go" (some "I1") "p" sockD1.user.username)) ∧
    onEmergencyAlert scenarioState sockE ⟨"fire", "m", "high", ["North"]⟩ =
      (scenarioState,
        ioTo scenarioState "emergency_team" "emergency_alert"
            (.alertP "fire" "m" "high" (some ["North"]) sockE.user.username)
          ++ (["North"] : List String).flatMap (fun z =>
              ioTo scenarioState ("zone:" ++ z) "emergency_alert"
                (.alertP "fire" "m" "high" none sockE.user.username))) :=
  ⟨((authorized_command_routing scenarioState sockD1 ⟨"go", some "I1", "p"⟩
        ⟨"fire", "m", "high", ["North"]⟩).1 (Or.inr rfl)).1 "I1" rfl (by decide),
   (authorized_command_routing scenarioState sockE ⟨"go", some "I1", "p"⟩
        ⟨"fire", "m", "high", ["North"]⟩).2 (Or.inl rfl)⟩

/-- Unfolded form of the userRooms bookkeeping of leaveRoom. -/
lemma leaveRoom_userRooms (st : ServerState) (sock : Socket) (room : String) :
    (leaveRoom st sock room).userRooms =
      match mapGet st.userRooms sock.userId with
      | none => st.userRooms
      | some s =>
        if (setDelete s room).isEmpty then mapDelete st.userRooms sock.userId
        else mapSet st.userRooms sock.userId (setDelete s room) := rfl

/-- C7: leaving a room twice in a row yields the same state as leaving it
once; the second call changes nothing, also when the session was never a
member. -/
theorem leave_idempotent (st : ServerState) (sock : Socket) (room : String) :
    leaveRoom (leaveRoom st sock room) sock room = leaveRoom st sock room := by
  have hrooms : (leaveRoom (leaveRoom st sock room) sock room).rooms
      = (leaveRoom st sock room).rooms := by
    show ((st.rooms.map _).map _) = st.rooms.map _
    rw [List.map_map]
    apply List.map_congr_left
    intro p _
    by_cases hk : p.1 = sock.sid <;> simp [Function.comp, hk, setDelete_idem]
  have huser : (leaveRoom (leaveRoom st sock room) sock room).userRooms
      = (leaveRoom st sock room).userRooms := by
    rw [leaveRoom_userRooms, leaveRoom_userRooms]
    cases hg : mapGet st.userRooms sock.userId with
    | none => simp [hg]
    | some s =>
      by_cases hemp : (setDelete s room).isEmpty = true
      · simp [hg, hemp, mapGet_mapDelete_self]
      · simp [hg, hemp, mapGet_mapSet_self, setDelete_idem, mapSet_mapSet_self]
  exact ServerState.ext rfl hrooms rfl huser

/-- C8: a failing snapshot fetch inside one periodic tick is swallowed: it
never changes the state (no tick does), a failing first fetch produces no
deliveries, and a later tick after a failed one behaves exactly as a lone
tick would; the tick function is total, so the dispatcher cannot crash. -/
theorem periodic_tick_failure_isolated (st : ServerState) (e : String)
    (ft : Except String (List TrafficData)) (fi fi2 : Except String (List Incident)) :
    (periodicTick st (.error e) fi).1 = st ∧
    (periodicTick st (.error e) fi).2 = [] ∧
    (periodicTick st ft fi).1 = st ∧
    runTicks st [(.error e, fi), (ft, fi2)] = (st, (periodicTick st ft fi2).2) := by
  refine ⟨rfl, rfl, ?_, ?_⟩
  · cases ft with
    | error _ => rfl
    | ok _ =>
      cases fi with
      | error _ => rfl
      | ok _ => rfl
  · cases ft with
    | error _ => cases fi2 <;> simp [runTicks, periodicTick]
    | ok _ => cases fi2 <;> simp [runTicks, periodicTick]

/-- C9: both module maps are keyed by user id: a second connection by the
same user overwrites the registry entry with the new socket, a disconnect
of either connection deletes the whole user entry in both maps while the
other socket stays connected, and connecting never duplicates a user key
in the registry. -/
theorem user_keyed_registry (st : ServerState) (s1 s2 : Socket)
    (huid : s2.userId = s1.userId) (hsid : s2.sid ≠ s1.sid) :
    mapGet ((onConnection (onConnection st s1).1 s2).1).connectedUsers s1.userId
        = some ⟨s2.sid, s2.user, []⟩ ∧
    mapGet (onDisconnect ((onConnection (onConnection st s1).1 s2).1) s1).connectedUsers
        s1.userId = none ∧
    mapGet (onDisconnect ((onConnection (onConnection st s1).1 s2).1) s1).userRooms
        s1.userId = none ∧
    s2 ∈ (onDisconnect ((onConnection (onConnection st s1).1 s2).1) s1).sockets ∧
    ((st.connectedUsers.map Prod.fst).Nodup →
      (((onConnection st s1).1).connectedUsers.map Prod.fst).Nodup) := by
  have hcu : ∀ (stp : ServerState) (s : Socket),
      ((onConnection stp s).1).connectedUsers
        = mapSet stp.connectedUsers s.userId ⟨s.sid, s.user, []⟩ := by
    intro stp s
    simp [onConnection, defaultJoins_connectedUsers]
  have hsk : ∀ (stp : ServerState) (s : Socket),
      ((onConnection stp s).1).sockets = stp.sockets ++ [s] := by
    intro stp s
    simp [onConnection, defaultJoins_sockets]
  refine ⟨?_, ?_, ?_, ?_, ?_⟩
  · rw [hcu, hcu, huid]
    exact mapGet_mapSet_self _ _ _
  · exact mapGet_mapDelete_self _ _
  · exact mapGet_mapDelete_self _ _
  · simp [onDisconnect, hsk, List.mem_filter, hsid]
  · intro hnd
    rw [hcu]
    exact nodupKeys_mapSet _ _ _ hnd

/-- C9 witness: user dave connects twice; the registry entry for his user
id holds the second socket. -/
theorem user_keyed_registry_witness :
    mapGet ((onConnection (onConnection emptyState sockD1).1 sockD2).1).connectedUsers
        sockD1.userId = some ⟨sockD2.sid, sockD2.user, []⟩ :=
  (user_keyed_registry emptyState sockD1 sockD2 rfl (by decide)).1

/-- C10: broadcastIncidentUpdate delivers an incident_update to every
connected socket regardless of membership; its emergency_alert deliveries
are exactly the emergency_team fan-out when severity is high or critical
and empty otherwise; and its incident_update deliveries are the all-sockets
fan-out plus the zone-room fan-out exactly when the incident location
carries a (non-empty) zone. -/
theorem incident_update_routing (st : ServerState) (inc : Incident) :
    (∀ s ∈ st.sockets,
      Delivery.mk s.sid "incident_update" (.incidentD inc)
        ∈ broadcastIncidentUpdate st inc) ∧
    filterEvent (broadcastIncidentUpdate st inc) "emergency_alert" =
      (if inc.severity = "high" ∨ inc.severity = "critical"
       then ioTo st "emergency_team" "emergency_alert" (.incidentD inc) else []) ∧
    filterEvent (broadcastIncidentUpdate st inc) "incident_update" =
      ioEmit st "incident_update" (.incidentD inc)
      ++ (if strTruthy inc.locationZone
          then ioTo st ("zone:" ++ inc.locationZone.getD "") "incident_update"
            (.incidentD inc)
          else []) := by
  refine ⟨?_, ?_, ?_⟩
  · intro s hs
    simp only [broadcastIncidentUpdate, List.mem_append]
    exact Or.inl (Or.inl (List.mem_map.mpr ⟨s, hs, rfl⟩))
  · by_cases hsev : inc.severity = "high" ∨ inc.severity = "critical" <;>
      by_cases hz : strTruthy inc.locationZone = true <;>
        simp [broadcastIncidentUpdate, filterEvent_append, filterEvent_ioTo,
          filterEvent_ioEmit, hsev, hz]
  · by_cases hsev : inc.severity = "high" ∨ inc.severity = "critical" <;>
      by_cases hz : strTruthy inc.locationZone = true <;>
        simp [broadcastIncidentUpdate, filterEvent_append, filterEvent_ioTo,
          filterEvent_ioEmit, hsev, hz]

/-- C10 witness: in the scenario state the high-severity North incident is
delivered as incident_update to connected socket A. -/
theorem incident_update_routing_witness :
    Delivery.mk sockA.sid "incident_update" (.incidentD incHigh)
      ∈ broadcastIncidentUpdate scenarioState incHigh :=
  (incident_update_routing scenarioState incHigh).1 sockA (by decide)

end STMS
